import Mathlib

/-!
Verification of the spending-insights transaction pipeline (src/src/data.py).

The dataframe is embedded as a list of rows.  Each row carries the three
required columns (Date, Description, Transaction Amount), the Category
column as an optional label (None embeds a pandas null / NaN cell), the
three derived calendar columns added by clean_df, and a list of any other
columns the uploaded table may carry.
-/

namespace SpendingInsights

/-- A calendar date, as produced by parse_dates on the Date column. -/
structure Date where
  year : Nat
  month : Nat
  day : Nat
deriving DecidableEq, Repr

/-- One row of the transactions dataframe.  Monetary amounts are held in
cents as integers.  Optional fields embed pandas cells that may be null. -/
structure Row where
  date : Date
  description : String
  amount : Int
  category : Option String
  dayOfWeek : Option String
  month : Option String
  year : Option Nat
  extra : List (String × String)
deriving DecidableEq, Repr

/-- The supported file types table (extension, MIME type) from data.py. -/
def SUPPORTED_FILE_TYPES : List (String × String) :=
  [("csv", "text/csv"),
   ("txt", "text/plain"),
   ("xlsx", "application/vnd.openxmlformats-officedocument.spreadsheetml.sheet")]

/-- An uploaded file after the collaborator (read_uploaded_file with
parse_dates on Date) has materialised its rows: its MIME type, its column
names, and its parsed rows. -/
structure UploadedFile where
  type : String
  columns : List String
  rows : List Row
deriving DecidableEq, Repr

/-- The required columns checked by validate_uploaded_file. -/
def required_columns : List String := ["Date", "Description", "Transaction Amount"]

/-- The required columns absent from the uploaded file, the local list
computed inside validate_uploaded_file. -/
def missing_columns (file : UploadedFile) : List String :=
  required_columns.filter (fun column => file.columns.contains column = false)

/-- Embedding of validate_uploaded_file: raising ValueError is embedded as
Except.error carrying the message; the documented boolean is the Except.ok
payload. -/
def validate_uploaded_file (file : UploadedFile) : Except String Bool :=
  if (SUPPORTED_FILE_TYPES.map Prod.snd).contains file.type = false then
    Except.error "Unsupported file type. Supported types are CSV, TXT, and XLSX"
  else if (missing_columns file).length > 0 then
    Except.error ("File is missing required columns: "
      ++ String.intercalate ", " (missing_columns file))
  else
    Except.ok true

/-- Embedding of categorize_df.  The body runs
df["Category"] = pd.Series() and returns df: assigning an empty Series to
the Category column aligns on the index and leaves every cell null, so
every row ends with category none.  The categories and num_categories
arguments are never read. -/
def categorize_df (df : List Row) (categories : Option (List String))
    (num_categories : Option Int) : List Row :=
  df.map (fun r => { r with category := none })

/-- Names of the days of the week as printed by strftime with the %A
directive, indexed from Sunday. -/
def day_names : List String :=
  ["Sunday", "Monday", "Tuesday", "Wednesday", "Thursday", "Friday", "Saturday"]

/-- Names of the months as printed by strftime with the %B directive. -/
def month_names : List String :=
  ["January", "February", "March", "April", "May", "June", "July", "August",
   "September", "October", "November", "December"]

/-- Day-of-week index of a Gregorian date (0 = Sunday), by the Sakamoto
congruence; embeds the value behind the strftime %A directive. -/
def dayOfWeekIndex (d : Date) : Nat :=
  let t := [0, 3, 2, 5, 0, 3, 5, 1, 4, 6, 2, 4]
  let y := if d.month < 3 then d.year - 1 else d.year
  (y + y / 4 - y / 100 + y / 400 + t.getD (d.month - 1) 0 + d.day) % 7

/-- The strftime %A value of a date. -/
def dayName (d : Date) : String := day_names.getD (dayOfWeekIndex d) ""

/-- The strftime %B value of a month number. -/
def monthName (m : Nat) : String := month_names.getD (m - 1) ""

/-- The per-row enrichment performed by the first three statements of
clean_df: Day of Week, Month and Year are derived from the Date column. -/
def enrich_row (r : Row) : Row :=
  { r with
    dayOfWeek := some (dayName r.date)
    month := some (monthName r.date.month)
    year := some r.date.year }

/-- A date collapsed to a single sort key; later dates get larger keys. -/
def dateKey (d : Date) : Nat := d.year * 10000 + d.month * 100 + d.day

/-- The ordering used by sort_values on Date with ascending False: a row
precedes another when its date key is at least as large. -/
def dateDescRel (a b : Row) : Prop := dateKey b.date ≤ dateKey a.date

instance (a b : Row) : Decidable (dateDescRel a b) :=
  Nat.decLe (dateKey b.date) (dateKey a.date)

instance : IsTotal Row dateDescRel :=
  ⟨fun a b => Nat.le_total (dateKey b.date) (dateKey a.date)⟩

instance : IsTrans Row dateDescRel :=
  ⟨fun _ _ _ hab hbc => le_trans hbc hab⟩

/-- Embedding of clean_df: derive Day of Week, Month and Year from Date,
then sort the rows by Date descending. -/
def clean_df (df : List Row) : List Row :=
  List.insertionSort dateDescRel (df.map enrich_row)

/-- The observable outcome of display_dataframe: either an error message
shown in the container, or the cleaned, categorized dataframe bound to the
data editor.  engineInvoked records whether categorize_df was called. -/
structure DisplayOutcome where
  errorMessage : Option String
  engineInvoked : Bool
  displayed : Option (List Row)
deriving DecidableEq, Repr

/-- Embedding of display_dataframe: validate, and on a ValueError show the
message and stop; otherwise read, categorize (with no categories and no
num_categories arguments, as at the call site), clean, and display. -/
def display_dataframe (file : UploadedFile) : DisplayOutcome :=
  match validate_uploaded_file file with
  | Except.error e =>
      { errorMessage := some e, engineInvoked := false, displayed := none }
  | Except.ok _ =>
      let df := file.rows
      let df := categorize_df df none none
      let df := clean_df df
      { errorMessage := none, engineInvoked := true, displayed := some df }

/-- The projection of a row to every column other than Category. -/
def nonCategoryFields (r : Row) :
    Date × String × Int × Option String × Option String × Option Nat
      × List (String × String) :=
  (r.date, r.description, r.amount, r.dayOfWeek, r.month, r.year, r.extra)

/-- A sample transaction row used in concrete evaluations. -/
def starbucksRow : Row :=
  { date := ⟨2024, 1, 1⟩
    description := "STARBUCKS 123"
    amount := -465
    category := none
    dayOfWeek := none
    month := none
    year := none
    extra := [] }

/-- A file of an unsupported MIME type. -/
def pdfFile : UploadedFile :=
  { type := "application/pdf"
    columns := ["Date", "Description", "Transaction Amount"]
    rows := [starbucksRow] }

/-- A well-formed CSV file with all required columns. -/
def goodFile : UploadedFile :=
  { type := "text/csv"
    columns := ["Date", "Description", "Transaction Amount"]
    rows := [] }

/-- C1: the spec requires that for a non-empty batch and non-empty
vocabulary every returned category is non-null and drawn from the
vocabulary or the reserved Uncategorized label; the code instead leaves
every category null.  Concretely, on a one-row batch with vocabulary
containing Coffee, categorize_df returns the single row with a null
category. -/
theorem categorize_df_returns_null_category :
    (categorize_df [starbucksRow] (some ["Coffee"]) none).map Row.category
      = [none] := rfl

/-- C2: the spec requires an InvalidArgument error on an empty batch, a
non-positive num_categories, or an empty vocabulary; the code raises
nothing and returns normally.  Concretely, on an empty batch with an empty
vocabulary and num_categories zero, categorize_df returns an empty
dataframe instead of failing. -/
theorem categorize_df_no_invalid_argument :
    categorize_df [] (some []) (some 0) = [] := rfl

/-- C3: categorize_df is idempotent: applying it to its own output with
the same arguments yields the same result. -/
theorem categorize_df_idempotent (df : List Row) (cats : Option (List String))
    (k : Option Int) :
    categorize_df (categorize_df df cats k) cats k = categorize_df df cats k := by
  simp [categorize_df, List.map_map]

/-- C4: categorize_df is deterministic: two runs on identical, unmodified
inputs produce identical per-row category labels. -/
theorem categorize_df_deterministic (df1 df2 : List Row)
    (cats1 cats2 : Option (List String)) (k1 k2 : Option Int)
    (hdf : df1 = df2) (hcats : cats1 = cats2) (hk : k1 = k2) :
    (categorize_df df1 cats1 k1).map Row.category
      = (categorize_df df2 cats2 k2).map Row.category := by
  rw [hdf, hcats, hk]

/-- Witness for C4 at a concrete batch and vocabulary. -/
theorem categorize_df_deterministic_witness :
    ([starbucksRow] : List Row) = [starbucksRow] ∧
    (categorize_df [starbucksRow] (some ["Coffee"]) (some 2)).map Row.category
      = (categorize_df [starbucksRow] (some ["Coffee"]) (some 2)).map Row.category :=
  ⟨rfl, categorize_df_deterministic [starbucksRow] [starbucksRow]
    (some ["Coffee"]) (some ["Coffee"]) (some 2) (some 2) rfl rfl rfl⟩

/-- C5: clean_df returns the rows sorted by Date descending (most recent
first), and the dates of the output are a permutation of the dates of the
input. -/
theorem clean_df_sorted_date_desc (df : List Row) :
    List.Sorted dateDescRel (clean_df df) ∧
    ((clean_df df).map (fun r => r.date)).Perm (df.map (fun r => r.date)) := by
  constructor
  · exact List.sorted_insertionSort dateDescRel (df.map enrich_row)
  · have h := List.perm_insertionSort dateDescRel (df.map enrich_row)
    have h2 := h.map (fun r => r.date)
    simpa [List.map_map, Function.comp, enrich_row] using h2

/-- C6: the enrichment inside clean_df is a pure, total function of the
date: every row of the output carries the day-of-week name, the month
name and the year derived from its own Date column. -/
theorem clean_df_enriches_from_date (df : List Row) (r : Row)
    (h : r ∈ clean_df df) :
    r.dayOfWeek = some (dayName r.date) ∧
    r.month = some (monthName r.date.month) ∧
    r.year = some r.date.year := by
  have hperm := List.perm_insertionSort dateDescRel (df.map enrich_row)
  have hmem : r ∈ df.map enrich_row := hperm.mem_iff.mp h
  obtain ⟨s, _, rfl⟩ := List.mem_map.mp hmem
  simp [enrich_row]

/-- Witness for C6 at a concrete one-row batch. -/
theorem clean_df_enriches_from_date_witness :
    (enrich_row starbucksRow) ∈ clean_df [starbucksRow] ∧
    ((enrich_row starbucksRow).dayOfWeek = some (dayName (enrich_row starbucksRow).date) ∧
     (enrich_row starbucksRow).month = some (monthName (enrich_row starbucksRow).date.month) ∧
     (enrich_row starbucksRow).year = some (enrich_row starbucksRow).date.year) :=
  ⟨by decide, clean_df_enriches_from_date [starbucksRow] (enrich_row starbucksRow) (by decide)⟩

/-- C7: when validation of an uploaded file fails, the error message is
shown to the user and categorize_df is never invoked on that file. -/
theorem display_dataframe_error_no_engine (file : UploadedFile) (e : String)
    (h : validate_uploaded_file file = Except.error e) :
    (display_dataframe file).engineInvoked = false ∧
    (display_dataframe file).errorMessage = some e := by
  simp [display_dataframe, h]

/-- Witness for C7 on a file of an unsupported type. -/
theorem display_dataframe_error_no_engine_witness :
    (display_dataframe pdfFile).engineInvoked = false ∧
    (display_dataframe pdfFile).errorMessage
      = some "Unsupported file type. Supported types are CSV, TXT, and XLSX" :=
  display_dataframe_error_no_engine pdfFile
    "Unsupported file type. Supported types are CSV, TXT, and XLSX" rfl

/-- C8: when a non-empty explicit category list is supplied, the value of
num_categories has no effect on the output of categorize_df. -/
theorem categorize_df_ignores_num_categories (df : List Row)
    (cats : List String) (k1 k2 : Option Int) (h : cats ≠ []) :
    categorize_df df (some cats) k1 = categorize_df df (some cats) k2 := rfl

/-- Witness for C8 at a concrete batch with two distinct counts. -/
theorem categorize_df_ignores_num_categories_witness :
    (["Coffee", "Shopping"] : List String) ≠ [] ∧
    categorize_df [starbucksRow] (some ["Coffee", "Shopping"]) (some 1)
      = categorize_df [starbucksRow] (some ["Coffee", "Shopping"]) (some 7) :=
  ⟨by decide, categorize_df_ignores_num_categories [starbucksRow]
    ["Coffee", "Shopping"] (some 1) (some 7) (by decide)⟩

/-- C9: categorize_df changes only the Category column: the number and
order of rows and every other field of every row are unchanged. -/
theorem categorize_df_frame (df : List Row) (cats : Option (List String))
    (k : Option Int) :
    (categorize_df df cats k).length = df.length ∧
    (categorize_df df cats k).map nonCategoryFields = df.map nonCategoryFields := by
  constructor
  · simp [categorize_df]
  · simp [categorize_df, List.map_map, Function.comp, nonCategoryFields]

/-- C10: validate_uploaded_file never returns False: every call either
raises a ValueError or returns True. -/
theorem validate_uploaded_file_never_false (file : UploadedFile) (b : Bool)
    (h : validate_uploaded_file file = Except.ok b) : b = true := by
  unfold validate_uploaded_file at h
  split at h
  · exact absurd h (by simp)
  · split at h
    · exact absurd h (by simp)
    · simpa using h

/-- Witness for C10 on a well-formed CSV file. -/
theorem validate_uploaded_file_never_false_witness :
    validate_uploaded_file goodFile = Except.ok true ∧ true = true :=
  ⟨rfl, validate_uploaded_file_never_false goodFile true rfl⟩

end SpendingInsights
